import Mathlib

/-!
Shallow embedding of the `week6-express` posts API server (`src/index.js`).

The server exposes three routes — `GET /api/posts`, `POST /api/posts`,
`GET /api/health` — plus a 404 catch-all and a global error handler.
Request bodies are JavaScript objects; we model the values a body field can
hold, JavaScript truthiness, the validation middleware `validatePostData`,
both route handlers (parameterised by the behaviour of the external
Supabase data store), the error handler and the 404 middleware.
-/

namespace WeekSixExpress

/-- The characters removed by JavaScript's `String.prototype.trim`:
WhiteSpace (tab, VT, FF, space, NBSP, BOM, Unicode space separators) and
LineTerminator (LF, CR, LS, PS). -/
def isJsWhitespace (c : Char) : Bool :=
  c == ' ' || c == '\t' || c == '\n' || c == '\r' ||
  c.toNat == 0x0b || c.toNat == 0x0c || c.toNat == 0xa0 || c.toNat == 0xfeff ||
  c.toNat == 0x1680 ||
  (0x2000 <= c.toNat && c.toNat <= 0x200a) ||
  c.toNat == 0x2028 || c.toNat == 0x2029 || c.toNat == 0x202f ||
  c.toNat == 0x205f || c.toNat == 0x3000

/-- JavaScript's `s.trim()`: strip leading and trailing whitespace. -/
def jsTrim (s : String) : String :=
  ⟨((s.data.dropWhile isJsWhitespace).reverse.dropWhile isJsWhitespace).reverse⟩

/-- A JavaScript value that can appear in a JSON request-body field. -/
inductive JValue where
  | str (s : String)
  | num (n : Int)
  | bool (b : Bool)
  | null
deriving DecidableEq, Repr

/-- A parsed request body for the posts API.  The three named fields model
the keys `title`, `body` and `user_id` (`none` = key absent); `extra`
models any additional keys the client sent. -/
structure ReqBody where
  title : Option JValue
  body : Option JValue
  user_id : Option JValue
  extra : List (String × JValue)
deriving Repr

/-- JSON values produced in responses (`res.json(...)`). -/
inductive Json where
  | str (s : String)
  | num (n : Int)
  | bool (b : Bool)
  | null
  | arr (xs : List Json)
  | obj (fields : List (String × Json))

/-- Field lookup inside a JSON object. -/
def Json.getField : Json → String → Option Json
  | .obj fs, k => (fs.find? (fun p => p.1 == k)).map Prod.snd
  | _, _ => none

/-- An HTTP response: status code plus JSON body. -/
structure Response where
  status : Nat
  body : Json

/-- JavaScript truthiness of a possibly-absent body field: `undefined`,
`null`, `""`, `0` and `false` are falsy, everything else truthy. -/
def truthy : Option JValue → Bool
  | none => false
  | some (.str s) => s != ""
  | some (.num n) => n != 0
  | some (.bool b) => b
  | some .null => false

/-- `typeof v === "string"` on a possibly-absent field. -/
def isStringVal : Option JValue → Bool
  | some (.str _) => true
  | _ => false

/-- `v.trim()` on a field known to be a string (only consulted after the
`typeof` check has passed, mirroring `||` short-circuiting). -/
def trimOf : Option JValue → String
  | some (.str s) => jsTrim s
  | _ => ""

/-- Result of the validation middleware: either an early 400 response or
`next()`. -/
inductive ValidationResult where
  | reject (r : Response)
  | pass

/-- The 400 response for `!title || !body || !user_id`. -/
def missingFieldsResponse : Response :=
  ⟨400, .obj [("error", .str "Missing required fields"),
              ("message", .str "Title, body, and user_id are required"),
              ("required", .arr [.str "title", .str "body", .str "user_id"])]⟩

/-- The 400 response for a field that is present and truthy but not a
non-empty string. -/
def invalidFieldResponse (e m : String) : Response :=
  ⟨400, .obj [("error", .str e), ("message", .str m)]⟩

/-- `validatePostData` middleware (src/index.js lines 56–91). -/
def validatePostData (b : ReqBody) : ValidationResult :=
  if !truthy b.title || !truthy b.body || !truthy b.user_id then
    .reject missingFieldsResponse
  else if !isStringVal b.title || (trimOf b.title).length == 0 then
    .reject (invalidFieldResponse "Invalid title" "Title must be a non-empty string")
  else if !isStringVal b.body || (trimOf b.body).length == 0 then
    .reject (invalidFieldResponse "Invalid body" "Body must be a non-empty string")
  else if !isStringVal b.user_id || (trimOf b.user_id).length == 0 then
    .reject (invalidFieldResponse "Invalid user_id" "User ID must be a non-empty string")
  else .pass

/-- A Post row held by the data store (`id` and `created_at` assigned by
the store). -/
structure Post where
  id : String
  title : String
  body : String
  user_id : String
  created_at : Int
deriving DecidableEq, Repr

/-- Serialisation of a row under the list query's column selection
`"id, title, body, user_id"`. -/
def Post.toListJson (p : Post) : Json :=
  .obj [("id", .str p.id), ("title", .str p.title),
        ("body", .str p.body), ("user_id", .str p.user_id)]

/-- Serialisation of a row under the insert query's column selection
`"id, title, body, user_id, created_at"`. -/
def Post.toInsertJson (p : Post) : Json :=
  .obj [("id", .str p.id), ("title", .str p.title),
        ("body", .str p.body), ("user_id", .str p.user_id),
        ("created_at", .num p.created_at)]

/-- A select query sent to the data store. -/
structure SelectQuery where
  table : String
  columns : List String
  orderBy : String
  ascending : Bool
deriving DecidableEq, Repr

/-- The query issued by `GET /api/posts`:
`.from("posts").select("id, title, body, user_id").order("created_at", { ascending: false })`. -/
def postsListQuery : SelectQuery :=
  { table := "posts", columns := ["id", "title", "body", "user_id"],
    orderBy := "created_at", ascending := false }

/-- Outcome of a select call: `error` non-null, or `data` (null or array). -/
inductive SelectOutcome where
  | err
  | ok (data : Option (List Post))

/-- The record submitted to the data store by the insert call. -/
structure InsertRow where
  title : String
  body : String
  user_id : String
deriving DecidableEq, Repr

/-- Outcome of an insert-then-select call: `error` non-null, or `data`
(null or array of returned rows). -/
inductive InsertOutcome where
  | err
  | ok (data : Option (List Post))

/-- 500 response for a store error during listing. -/
def dbListErrorResponse : Response :=
  ⟨500, .obj [("error", .str "Database error"),
              ("message", .str "Failed to retrieve posts")]⟩

/-- `GET /api/posts` handler (src/index.js lines 132–163), given the
outcome of the store call. -/
def getPostsHandler (outcome : SelectOutcome) : Response :=
  match outcome with
  | .err => dbListErrorResponse
  | .ok data =>
    ⟨200, .obj [("success", .bool true),
                ("data", .arr ((data.getD []).map Post.toListJson)),
                ("count", .num ((data.getD []).length))]⟩

/-- The list operation: issue `postsListQuery` to the store and translate
the outcome. -/
def listPosts (store : SelectQuery → SelectOutcome) : Response :=
  getPostsHandler (store postsListQuery)

/-- 500 response for a store error during creation. -/
def dbCreateErrorResponse : Response :=
  ⟨500, .obj [("error", .str "Database error"),
              ("message", .str "Failed to create post")]⟩

/-- 500 response when the insert reported no error but returned no record. -/
def creationFailedResponse : Response :=
  ⟨500, .obj [("error", .str "Creation failed"),
              ("message", .str "Post was not created")]⟩

/-- 500 response from the `catch` block of the create handler. -/
def unexpectedCreateErrorResponse : Response :=
  ⟨500, .obj [("error", .str "Internal server error"),
              ("message", .str "Failed to create post")]⟩

/-- `POST /api/posts` handler (src/index.js lines 191–238): runs the
validation middleware, then inserts the trimmed fields and inspects the
store outcome.  Returns the response together with the insert row
submitted to the store (`none` when no insert call was made). -/
def postPostsHandler (store : InsertRow → InsertOutcome) (b : ReqBody) :
    Response × Option InsertRow :=
  match validatePostData b with
  | .reject r => (r, none)
  | .pass =>
    match b.title, b.body, b.user_id with
    | some (.str t), some (.str bo), some (.str u) =>
      let row : InsertRow := ⟨jsTrim t, jsTrim bo, jsTrim u⟩
      match store row with
      | .err => (dbCreateErrorResponse, some row)
      | .ok none => (creationFailedResponse, some row)
      | .ok (some []) => (creationFailedResponse, some row)
      | .ok (some (p :: _)) =>
        (⟨201, .obj [("success", .bool true),
                     ("data", p.toInsertJson),
                     ("message", .str "Post created successfully")]⟩, some row)
    | _, _, _ => (unexpectedCreateErrorResponse, none)

/-- A fault reaching the global error handler. -/
structure ErrInfo where
  message : String
  stack : String
deriving DecidableEq, Repr

/-- Global error handler (src/index.js lines 104–112): generic 500 body,
spreading in the stack only when `NODE_ENV === "development"`. -/
def errorHandler (nodeEnv : String) (e : ErrInfo) : Response :=
  ⟨500, .obj ([("error", .str "Internal Server Error"),
               ("message", .str "An unexpected error occurred")] ++
              (if nodeEnv == "development" then [("stack", .str e.stack)] else []))⟩

/-- `GET /api/health` handler (src/index.js lines 246–253). -/
def healthHandler (timestamp : String) (uptime : Nat) : Response :=
  ⟨200, .obj [("success", .bool true),
              ("message", .str "Server is running"),
              ("timestamp", .str timestamp),
              ("uptime", .num uptime)]⟩

/-- The fixed route list in the 404 body. -/
def availableRoutes : List String :=
  ["GET /api/posts", "POST /api/posts", "GET /api/health"]

/-- 404 catch-all middleware (src/index.js lines 261–267). -/
def notFoundHandler (originalUrl : String) : Response :=
  ⟨404, .obj [("error", .str "Not Found"),
              ("message", .str ("Route " ++ originalUrl ++ " not found")),
              ("availableRoutes", .arr (availableRoutes.map Json.str))]⟩

/-- HTTP request method. -/
inductive Method where
  | get
  | post
  | put
  | del
  | patch
deriving DecidableEq, Repr

/-- Whether a request matches one of the three defined routes. -/
def matchesRoute (m : Method) (path : String) : Bool :=
  (m == .get && path == "/api/posts") ||
  (m == .post && path == "/api/posts") ||
  (m == .get && path == "/api/health")

/-- Per-request environment: the data-store behaviour, the parsed body,
and the values read by the health probe. -/
structure ServerEnv where
  selectStore : SelectQuery → SelectOutcome
  insertStore : InsertRow → InsertOutcome
  reqBody : ReqBody
  now : String
  uptime : Nat

/-- Route dispatch: the three registered routes in order, then the 404
catch-all (the error-handling middleware is skipped for ordinary
requests). -/
def dispatch (env : ServerEnv) (m : Method) (path : String) : Response :=
  if m == .get && path == "/api/posts" then listPosts env.selectStore
  else if m == .post && path == "/api/posts" then
    (postPostsHandler env.insertStore env.reqBody).1
  else if m == .get && path == "/api/health" then healthHandler env.now env.uptime
  else notFoundHandler path

/-- The field value is a string that is empty after trimming. -/
def JValue.blankStr : JValue → Bool
  | .str s => jsTrim s == ""
  | _ => false

/-- The field value is a string (`typeof v === "string"`). -/
def JValue.isStr : JValue → Bool
  | .str _ => true
  | _ => false

/-- A concrete stored post, used to instantiate store behaviours. -/
def samplePostA : Post := ⟨"id-a", "tA", "bA", "uA", 20⟩

/-- Another concrete stored post with an earlier creation time. -/
def samplePostB : Post := ⟨"id-b", "tB", "bB", "uB", 10⟩

example : jsTrim "  Hi  " = "Hi" := by decide

example :
    validatePostData ⟨some (.str "Hi"), some (.str "World"), some (.str "u1"), []⟩ =
      .pass := by rfl

example :
    validatePostData ⟨some (.str "Hi"), none, some (.str "u1"), []⟩ =
      .reject missingFieldsResponse := by rfl

example :
    validatePostData ⟨some (.str "Hi"), some (.str "  "), some (.str "u1"), []⟩ =
      .reject (invalidFieldResponse "Invalid body" "Body must be a non-empty string") := by rfl

example :
    validatePostData ⟨some (.num 5), some (.str "b"), some (.str "u1"), []⟩ =
      .reject (invalidFieldResponse "Invalid title" "Title must be a non-empty string") := by rfl

example :
    validatePostData ⟨some (.num 0), some (.str "b"), some (.str "u1"), []⟩ =
      .reject missingFieldsResponse := by rfl

/-! ## Helper lemmas -/

theorem string_length_eq_zero_iff (s : String) : s.length = 0 ↔ s = "" := by
  rw [String.ext_iff]
  cases s with
  | mk data => simp [String.length, List.length_eq_zero]

theorem jsTrim_empty : jsTrim "" = "" := rfl

theorem ne_empty_of_jsTrim_ne_empty {s : String} (h : jsTrim s ≠ "") : s ≠ "" := by
  intro hs
  exact h (hs ▸ jsTrim_empty)

/-- Validation passes on a body whose three fields are strings that are
non-empty after trimming. -/
theorem validate_strings_pass (t bo u : String) (extra : List (String × JValue))
    (ht : jsTrim t ≠ "") (hb : jsTrim bo ≠ "") (hu : jsTrim u ≠ "") :
    validatePostData ⟨some (.str t), some (.str bo), some (.str u), extra⟩ = .pass := by
  have ht0 : t ≠ "" := ne_empty_of_jsTrim_ne_empty ht
  have hb0 : bo ≠ "" := ne_empty_of_jsTrim_ne_empty hb
  have hu0 : u ≠ "" := ne_empty_of_jsTrim_ne_empty hu
  have ht1 : ¬ (jsTrim t).length = 0 := fun h => ht ((string_length_eq_zero_iff _).mp h)
  have hb1 : ¬ (jsTrim bo).length = 0 := fun h => hb ((string_length_eq_zero_iff _).mp h)
  have hu1 : ¬ (jsTrim u).length = 0 := fun h => hu ((string_length_eq_zero_iff _).mp h)
  simp [validatePostData, truthy, isStringVal, trimOf, ht0, hb0, hu0, ht1, hb1, hu1]

/-- Validation passes only on a body whose three fields are strings that
are non-empty after trimming. -/
theorem validate_pass_shape (b : ReqBody) (h : validatePostData b = .pass) :
    ∃ t bo u, b.title = some (.str t) ∧ b.body = some (.str bo) ∧
      b.user_id = some (.str u) ∧ jsTrim t ≠ "" ∧ jsTrim bo ≠ "" ∧ jsTrim u ≠ "" := by
  unfold validatePostData at h
  split at h
  · exact absurd h (by simp)
  · split at h
    · exact absurd h (by simp)
    · split at h
      · exact absurd h (by simp)
      · split at h
        · exact absurd h (by simp)
        · rename_i h1 h2 h3 h4
          simp only [Bool.or_eq_true, Bool.not_eq_true', not_or] at h2 h3 h4
          obtain ⟨hts, htl⟩ := h2
          obtain ⟨hbs, hbl⟩ := h3
          obtain ⟨hus, hul⟩ := h4
          obtain ⟨t, htv⟩ : ∃ t, b.title = some (.str t) := by
            cases hv : b.title with
            | none => rw [hv] at hts; simp [isStringVal] at hts
            | some j =>
              cases j with
              | str s => exact ⟨s, rfl⟩
              | _ => rw [hv] at hts; simp [isStringVal] at hts
          obtain ⟨bo, hbv⟩ : ∃ bo, b.body = some (.str bo) := by
            cases hv : b.body with
            | none => rw [hv] at hbs; simp [isStringVal] at hbs
            | some j =>
              cases j with
              | str s => exact ⟨s, rfl⟩
              | _ => rw [hv] at hbs; simp [isStringVal] at hbs
          obtain ⟨u, huv⟩ : ∃ u, b.user_id = some (.str u) := by
            cases hv : b.user_id with
            | none => rw [hv] at hus; simp [isStringVal] at hus
            | some j =>
              cases j with
              | str s => exact ⟨s, rfl⟩
              | _ => rw [hv] at hus; simp [isStringVal] at hus
          refine ⟨t, bo, u, htv, hbv, huv, ?_, ?_, ?_⟩
          · rw [htv] at htl
            simp only [trimOf, beq_iff_eq] at htl
            exact fun hh => htl ((string_length_eq_zero_iff _).mpr hh)
          · rw [hbv] at hbl
            simp only [trimOf, beq_iff_eq] at hbl
            exact fun hh => hbl ((string_length_eq_zero_iff _).mpr hh)
          · rw [huv] at hul
            simp only [trimOf, beq_iff_eq] at hul
            exact fun hh => hul ((string_length_eq_zero_iff _).mpr hh)

/-- Every rejection produced by the validator carries status 400. -/
theorem validate_reject_status (b : ReqBody) (r : Response)
    (h : validatePostData b = .reject r) : r.status = 400 := by
  unfold validatePostData at h
  split at h
  · cases h; rfl
  · split at h
    · cases h; rfl
    · split at h
      · cases h; rfl
      · split at h
        · cases h; rfl
        · cases h

/-! ## Claim theorems -/

/-- C2: a create request missing any one of `title`, `body`, `user_id`
responds 400 with a structured rejection naming the required fields, and
performs no call to the data store. -/
theorem create_missing_required_field_rejected (b : ReqBody)
    (store : InsertRow → InsertOutcome)
    (h : b.title = none ∨ b.body = none ∨ b.user_id = none) :
    postPostsHandler store b = (missingFieldsResponse, none) ∧
    missingFieldsResponse.status = 400 ∧
    missingFieldsResponse.body.getField "required" =
      some (.arr [.str "title", .str "body", .str "user_id"]) := by
  have hval : validatePostData b = .reject missingFieldsResponse := by
    unfold validatePostData
    rcases h with h | h | h <;> simp [h, truthy]
  exact ⟨by simp [postPostsHandler, hval], rfl, rfl⟩

/-- C2 witness: a concrete body missing `body` is rejected without any
store call. -/
theorem create_missing_required_field_rejected_witness :
    postPostsHandler (fun _ => .ok (some [samplePostA]))
        ⟨some (.str "Hi"), none, some (.str "u1"), []⟩ =
      (missingFieldsResponse, none) ∧
    missingFieldsResponse.status = 400 ∧
    missingFieldsResponse.body.getField "required" =
      some (.arr [.str "title", .str "body", .str "user_id"]) :=
  create_missing_required_field_rejected
    ⟨some (.str "Hi"), none, some (.str "u1"), []⟩
    (fun _ => .ok (some [samplePostA])) (Or.inr (Or.inl rfl))

/-- C9: a present-but-falsy required field (empty string, 0, false, null)
is rejected through the truthiness presence branch — 400 with error
"Missing required fields" and the required-field list — not through the
field-specific type/emptiness branch. -/
theorem create_falsy_present_field_rejected_as_missing (b : ReqBody)
    (store : InsertRow → InsertOutcome)
    (h : (∃ j, b.title = some j ∧ truthy (some j) = false) ∨
         (∃ j, b.body = some j ∧ truthy (some j) = false) ∨
         (∃ j, b.user_id = some j ∧ truthy (some j) = false)) :
    postPostsHandler store b = (missingFieldsResponse, none) ∧
    missingFieldsResponse.body.getField "error" =
      some (.str "Missing required fields") ∧
    missingFieldsResponse.body.getField "required" =
      some (.arr [.str "title", .str "body", .str "user_id"]) := by
  have hval : validatePostData b = .reject missingFieldsResponse := by
    unfold validatePostData
    rcases h with ⟨j, hj, hf⟩ | ⟨j, hj, hf⟩ | ⟨j, hj, hf⟩ <;> simp [hj, hf]
  exact ⟨by simp [postPostsHandler, hval], rfl, rfl⟩

/-- C9 witness: `title` present as `0` (falsy, and not key-absence) takes
the missing-fields branch. -/
theorem create_falsy_present_field_rejected_as_missing_witness :
    postPostsHandler (fun _ => .ok (some [samplePostA]))
        ⟨some (.num 0), some (.str "b"), some (.str "u1"), []⟩ =
      (missingFieldsResponse, none) ∧
    missingFieldsResponse.body.getField "error" =
      some (.str "Missing required fields") ∧
    missingFieldsResponse.body.getField "required" =
      some (.arr [.str "title", .str "body", .str "user_id"]) :=
  create_falsy_present_field_rejected_as_missing
    ⟨some (.num 0), some (.str "b"), some (.str "u1"), []⟩
    (fun _ => .ok (some [samplePostA])) (Or.inl ⟨.num 0, rfl, rfl⟩)

/-- C3: a create request in which some required field is present but is a
blank (empty or whitespace-only) string, or present but not a string,
responds 400 and never reaches the data store. -/
theorem create_blank_or_nonstring_field_rejected (b : ReqBody)
    (store : InsertRow → InsertOutcome)
    (h : (∃ j, b.title = some j ∧ (j.blankStr || !j.isStr) = true) ∨
         (∃ j, b.body = some j ∧ (j.blankStr || !j.isStr) = true) ∨
         (∃ j, b.user_id = some j ∧ (j.blankStr || !j.isStr) = true)) :
    (postPostsHandler store b).1.status = 400 ∧
    (postPostsHandler store b).2 = none := by
  cases hval : validatePostData b with
  | reject r =>
    refine ⟨?_, ?_⟩
    · have : (postPostsHandler store b).1 = r := by simp [postPostsHandler, hval]
      rw [this]
      exact validate_reject_status b r hval
    · simp [postPostsHandler, hval]
  | pass =>
    exfalso
    obtain ⟨t, bo, u, htv, hbv, huv, ht, hb, hu⟩ := validate_pass_shape b hval
    rcases h with ⟨j, hj, hbad⟩ | ⟨j, hj, hbad⟩ | ⟨j, hj, hbad⟩
    · rw [htv] at hj
      injection hj with hj
      subst hj
      simp [JValue.blankStr, JValue.isStr, ht] at hbad
    · rw [hbv] at hj
      injection hj with hj
      subst hj
      simp [JValue.blankStr, JValue.isStr, hb] at hbad
    · rw [huv] at hj
      injection hj with hj
      subst hj
      simp [JValue.blankStr, JValue.isStr, hu] at hbad

/-- C3 witness: a whitespace-only `body` is rejected with a 400 and no
store call. -/
theorem create_blank_or_nonstring_field_rejected_witness :
    (postPostsHandler (fun _ => .ok (some [samplePostA]))
        ⟨some (.str "Hi"), some (.str "   "), some (.str "u1"), []⟩).1.status = 400 ∧
    (postPostsHandler (fun _ => .ok (some [samplePostA]))
        ⟨some (.str "Hi"), some (.str "   "), some (.str "u1"), []⟩).2 = none :=
  create_blank_or_nonstring_field_rejected
    ⟨some (.str "Hi"), some (.str "   "), some (.str "u1"), []⟩
    (fun _ => .ok (some [samplePostA]))
    (Or.inr (Or.inl ⟨.str "   ", rfl, by decide⟩))

/-- C4: when the store reports no error, the list response is 200 with a
`{success, data, count}` envelope whose `count` is the length of the
`data` array; with zero records (null or empty data) the response is
`{success: true, data: [], count: 0}`, not an error. -/
theorem list_no_error_success_envelope :
    (∀ d : Option (List Post),
      getPostsHandler (.ok d) =
        ⟨200, .obj [("success", .bool true),
                    ("data", .arr ((d.getD []).map Post.toListJson)),
                    ("count", .num (((d.getD []).map Post.toListJson).length))]⟩) ∧
    getPostsHandler (.ok none) =
      ⟨200, .obj [("success", .bool true), ("data", .arr []), ("count", .num 0)]⟩ ∧
    getPostsHandler (.ok (some [])) =
      ⟨200, .obj [("success", .bool true), ("data", .arr []), ("count", .num 0)]⟩ := by
  refine ⟨?_, rfl, rfl⟩
  intro d
  simp [getPostsHandler, List.length_map]

/-- C5: the list operation queries the `posts` table selecting exactly
`id, title, body, user_id`, ordered by `created_at` descending, and the
returned `data` array presents the store's rows in the store's order. -/
theorem list_query_selection_order_and_preservation :
    postsListQuery.table = "posts" ∧
    postsListQuery.columns = ["id", "title", "body", "user_id"] ∧
    postsListQuery.orderBy = "created_at" ∧
    postsListQuery.ascending = false ∧
    ∀ (store : SelectQuery → SelectOutcome) (l : List Post),
      store postsListQuery = .ok (some l) →
      (listPosts store).body.getField "data" = some (.arr (l.map Post.toListJson)) := by
  refine ⟨rfl, rfl, rfl, rfl, ?_⟩
  intro store l h
  unfold listPosts
  rw [h]
  rfl

/-- C5 witness: a two-element store result (newest first) is returned in
the store's order. -/
theorem list_query_selection_order_and_preservation_witness :
    (listPosts (fun _ => .ok (some [samplePostA, samplePostB]))).body.getField "data" =
      some (.arr ([samplePostA, samplePostB].map Post.toListJson)) :=
  list_query_selection_order_and_preservation.2.2.2.2
    (fun _ => .ok (some [samplePostA, samplePostB])) [samplePostA, samplePostB] rfl

/-- C1: a create request whose `title`, `body`, `user_id` are strings that
are non-empty after trimming — when the store reports no error and returns
the inserted record — responds 201 with a success envelope whose data is
the returned record (carrying the trimmed field values and a non-empty
store-assigned id) and message "Post created successfully". -/
theorem create_valid_payload_created_201 (t bo u : String)
    (extra : List (String × JValue)) (store : InsertRow → InsertOutcome) (p : Post)
    (ht : jsTrim t ≠ "") (hb : jsTrim bo ≠ "") (hu : jsTrim u ≠ "")
    (hstore : store ⟨jsTrim t, jsTrim bo, jsTrim u⟩ = .ok (some [p]))
    (hpt : p.title = jsTrim t) (hpb : p.body = jsTrim bo) (hpu : p.user_id = jsTrim u)
    (hid : p.id ≠ "") :
    postPostsHandler store ⟨some (.str t), some (.str bo), some (.str u), extra⟩ =
      (⟨201, .obj [("success", .bool true), ("data", p.toInsertJson),
                   ("message", .str "Post created successfully")]⟩,
       some ⟨jsTrim t, jsTrim bo, jsTrim u⟩) ∧
    p.toInsertJson.getField "title" = some (.str (jsTrim t)) ∧
    p.toInsertJson.getField "body" = some (.str (jsTrim bo)) ∧
    p.toInsertJson.getField "user_id" = some (.str (jsTrim u)) ∧
    p.toInsertJson.getField "id" = some (.str p.id) ∧
    p.id ≠ "" := by
  have hval := validate_strings_pass t bo u extra ht hb hu
  refine ⟨?_, ?_, ?_, ?_, rfl, hid⟩
  · simp [postPostsHandler, hval, hstore]
  · simp only [Post.toInsertJson, hpt]
    rfl
  · simp only [Post.toInsertJson, hpb]
    rfl
  · simp only [Post.toInsertJson, hpu]
    rfl

/-- C1 witness: a concrete payload with surrounding whitespace is created
with trimmed values and the store-assigned id. -/
theorem create_valid_payload_created_201_witness :
    postPostsHandler (fun _ => .ok (some [⟨"id-1", "Hi", "World", "u1", 5⟩]))
        ⟨some (.str "  Hi "), some (.str "World"), some (.str " u1"),
         [("id", .str "client-id")]⟩ =
      (⟨201, .obj [("success", .bool true),
                   ("data", Post.toInsertJson ⟨"id-1", "Hi", "World", "u1", 5⟩),
                   ("message", .str "Post created successfully")]⟩,
       some ⟨jsTrim "  Hi ", jsTrim "World", jsTrim " u1"⟩) ∧
    (Post.toInsertJson ⟨"id-1", "Hi", "World", "u1", 5⟩).getField "title" =
      some (.str (jsTrim "  Hi ")) ∧
    (Post.toInsertJson ⟨"id-1", "Hi", "World", "u1", 5⟩).getField "body" =
      some (.str (jsTrim "World")) ∧
    (Post.toInsertJson ⟨"id-1", "Hi", "World", "u1", 5⟩).getField "user_id" =
      some (.str (jsTrim " u1")) ∧
    (Post.toInsertJson ⟨"id-1", "Hi", "World", "u1", 5⟩).getField "id" =
      some (.str (Post.id ⟨"id-1", "Hi", "World", "u1", 5⟩)) ∧
    Post.id ⟨"id-1", "Hi", "World", "u1", 5⟩ ≠ "" :=
  create_valid_payload_created_201 "  Hi " "World" " u1" [("id", .str "client-id")]
    (fun _ => .ok (some [⟨"id-1", "Hi", "World", "u1", 5⟩]))
    ⟨"id-1", "Hi", "World", "u1", 5⟩
    (by decide) (by decide) (by decide) rfl (by decide) (by decide) (by decide)
    (by decide)

/-- C6: if a validated insert reports no error but returns no record (null
or empty array), the response is the 500 "Creation failed" body, which is
distinct from the 500 "Database error" body produced when the store
reports an error. -/
theorem create_empty_insert_result_distinct_500 (t bo u : String)
    (extra : List (String × JValue)) (store : InsertRow → InsertOutcome)
    (ht : jsTrim t ≠ "") (hb : jsTrim bo ≠ "") (hu : jsTrim u ≠ "")
    (hstore : store ⟨jsTrim t, jsTrim bo, jsTrim u⟩ = .ok none ∨
              store ⟨jsTrim t, jsTrim bo, jsTrim u⟩ = .ok (some [])) :
    (postPostsHandler store ⟨some (.str t), some (.str bo), some (.str u), extra⟩).1 =
      creationFailedResponse ∧
    creationFailedResponse.status = 500 ∧
    creationFailedResponse.body.getField "error" = some (.str "Creation failed") ∧
    creationFailedResponse.body.getField "message" = some (.str "Post was not created") ∧
    dbCreateErrorResponse.body.getField "error" = some (.str "Database error") ∧
    dbCreateErrorResponse.body.getField "message" = some (.str "Failed to create post") ∧
    creationFailedResponse ≠ dbCreateErrorResponse ∧
    ∀ store2 : InsertRow → InsertOutcome,
      store2 ⟨jsTrim t, jsTrim bo, jsTrim u⟩ = .err →
      (postPostsHandler store2
          ⟨some (.str t), some (.str bo), some (.str u), extra⟩).1 =
        dbCreateErrorResponse := by
  have hval := validate_strings_pass t bo u extra ht hb hu
  refine ⟨?_, rfl, rfl, rfl, rfl, rfl, ?_, ?_⟩
  · rcases hstore with h | h <;> simp [postPostsHandler, hval, h]
  · intro hEq
    have hf := congrArg (fun r => r.body.getField "error") hEq
    simp only [creationFailedResponse, dbCreateErrorResponse, Json.getField] at hf
    simp at hf
  · intro store2 h2
    simp [postPostsHandler, hval, h2]

/-- C6 witness: a store returning a null insert result yields the
"Creation failed" 500 at a concrete payload. -/
theorem create_empty_insert_result_distinct_500_witness :
    (postPostsHandler (fun _ => .ok none)
        ⟨some (.str "T"), some (.str "B"), some (.str "U"), []⟩).1 =
      creationFailedResponse ∧
    creationFailedResponse.status = 500 ∧
    creationFailedResponse.body.getField "error" = some (.str "Creation failed") ∧
    creationFailedResponse.body.getField "message" = some (.str "Post was not created") ∧
    dbCreateErrorResponse.body.getField "error" = some (.str "Database error") ∧
    dbCreateErrorResponse.body.getField "message" = some (.str "Failed to create post") ∧
    creationFailedResponse ≠ dbCreateErrorResponse ∧
    ∀ store2 : InsertRow → InsertOutcome,
      store2 ⟨jsTrim "T", jsTrim "B", jsTrim "U"⟩ = .err →
      (postPostsHandler store2
          ⟨some (.str "T"), some (.str "B"), some (.str "U"), []⟩).1 =
        dbCreateErrorResponse :=
  create_empty_insert_result_distinct_500 "T" "B" "U" [] (fun _ => .ok none)
    (by decide) (by decide) (by decide) (Or.inl rfl)

/-- C7: any request matching none of the three defined routes gets a 404
whose body has an error field, a message naming the URL, and
`availableRoutes` equal to exactly the fixed three-route list. -/
theorem undefined_route_404 (env : ServerEnv) (m : Method) (path : String)
    (h : matchesRoute m path = false) :
    dispatch env m path =
      ⟨404, .obj [("error", .str "Not Found"),
                  ("message", .str ("Route " ++ path ++ " not found")),
                  ("availableRoutes",
                    .arr [.str "GET /api/posts", .str "POST /api/posts",
                          .str "GET /api/health"])]⟩ ∧
    availableRoutes = ["GET /api/posts", "POST /api/posts", "GET /api/health"] := by
  simp only [matchesRoute, Bool.or_eq_false_iff] at h
  obtain ⟨⟨h1, h2⟩, h3⟩ := h
  refine ⟨?_, rfl⟩
  simp [dispatch, h1, h2, h3, notFoundHandler, availableRoutes]

/-- C7 witness: `PUT /api/posts` matches no route and gets the fixed 404
body. -/
theorem undefined_route_404_witness :
    dispatch ⟨fun _ => .ok none, fun _ => .ok none, ⟨none, none, none, []⟩, "ts", 0⟩
        .put "/api/posts" =
      ⟨404, .obj [("error", .str "Not Found"),
                  ("message", .str ("Route " ++ "/api/posts" ++ " not found")),
                  ("availableRoutes",
                    .arr [.str "GET /api/posts", .str "POST /api/posts",
                          .str "GET /api/health"])]⟩ ∧
    availableRoutes = ["GET /api/posts", "POST /api/posts", "GET /api/health"] :=
  undefined_route_404
    ⟨fun _ => .ok none, fun _ => .ok none, ⟨none, none, none, []⟩, "ts", 0⟩
    .put "/api/posts" (by decide)

/-- C8 counterexample: with the mode flag set to "test" — a value other
than "production", hence indicating a non-production mode — the error
response contains no stack detail, refuting "includes the stack if and
only if the mode flag indicates non-production mode". -/
theorem errorHandler_nonproduction_mode_without_stack :
    "test" ≠ "production" ∧
    (errorHandler "test" ⟨"boom", "trace-abc"⟩).body.getField "stack" = none :=
  ⟨by decide, rfl⟩

/-- C8 amended: the 500 body is the generic error/message pair; it carries
the fault's stack if and only if the mode flag equals "development" (one
particular non-production value); in every other mode the response is
independent of the fault's internal detail. -/
theorem errorHandler_generic_stack_iff_development (env : String) (e : ErrInfo) :
    (errorHandler env e).status = 500 ∧
    (errorHandler env e).body.getField "error" =
      some (.str "Internal Server Error") ∧
    (errorHandler env e).body.getField "message" =
      some (.str "An unexpected error occurred") ∧
    ((errorHandler env e).body.getField "stack" = some (.str e.stack) ↔
      env = "development") ∧
    (env ≠ "development" → ∀ e2 : ErrInfo, errorHandler env e = errorHandler env e2) := by
  by_cases h : env = "development"
  · subst h
    refine ⟨rfl, rfl, rfl, ⟨fun _ => rfl, fun _ => rfl⟩, fun hc => absurd rfl hc⟩
  · have hb : (env == "development") = false := by
      simp [h]
    refine ⟨rfl, rfl, rfl, ?_, ?_⟩
    · constructor
      · intro hf
        exfalso
        simp [errorHandler, hb, Json.getField] at hf
      · intro hc
        exact absurd hc h
    · intro _ e2
      simp [errorHandler, hb]

/-- C8 amended witness: in production mode the response does not depend on
the fault. -/
theorem errorHandler_generic_stack_iff_development_witness :
    errorHandler "production" ⟨"m1", "s1"⟩ = errorHandler "production" ⟨"m2", "s2"⟩ :=
  (errorHandler_generic_stack_iff_development "production" ⟨"m1", "s1"⟩).2.2.2.2
    (by decide) ⟨"m2", "s2"⟩

/-- C10: the record submitted to the data store is determined solely by
the trimmed `title`, `body` and `user_id` of the request body — two bodies
agreeing on those three fields (whatever extra keys they carry) produce
identical handler behaviour, and on a validated body the submitted row is
exactly the trimmed triple. -/
theorem insert_row_determined_by_three_fields (b1 b2 : ReqBody)
    (store : InsertRow → InsertOutcome)
    (h1 : b1.title = b2.title) (h2 : b1.body = b2.body)
    (h3 : b1.user_id = b2.user_id) :
    postPostsHandler store b1 = postPostsHandler store b2 ∧
    (validatePostData b1 = .pass →
      (postPostsHandler store b1).2 =
        some ⟨trimOf b1.title, trimOf b1.body, trimOf b1.user_id⟩) := by
  constructor
  · unfold postPostsHandler validatePostData
    rw [h1, h2, h3]
  · intro hval
    obtain ⟨t, bo, u, htv, hbv, huv, _, _, _⟩ := validate_pass_shape b1 hval
    rw [htv, hbv, huv]
    simp only [postPostsHandler, hval, htv, hbv, huv, trimOf]
    cases hs : store ⟨jsTrim t, jsTrim bo, jsTrim u⟩ with
    | err => simp [hs]
    | ok d =>
      cases d with
      | none => simp [hs]
      | some l =>
        cases l with
        | nil => simp [hs]
        | cons p rest => simp [hs]

/-- C10 witness: two concrete bodies differing only in extra keys
(including a client-supplied id and created_at) get identical responses,
and the submitted row is the trimmed triple. -/
theorem insert_row_determined_by_three_fields_witness :
    postPostsHandler (fun _ => .ok (some [samplePostA]))
        ⟨some (.str " T"), some (.str "B "), some (.str "U"), []⟩ =
      postPostsHandler (fun _ => .ok (some [samplePostA]))
        ⟨some (.str " T"), some (.str "B "), some (.str "U"),
         [("id", .str "client-id"), ("created_at", .num 1)]⟩ ∧
    (postPostsHandler (fun _ => .ok (some [samplePostA]))
        ⟨some (.str " T"), some (.str "B "), some (.str "U"), []⟩).2 =
      some ⟨trimOf (some (.str " T")), trimOf (some (.str "B ")),
            trimOf (some (.str "U"))⟩ :=
  ⟨(insert_row_determined_by_three_fields
      ⟨some (.str " T"), some (.str "B "), some (.str "U"), []⟩
      ⟨some (.str " T"), some (.str "B "), some (.str "U"),
       [("id", .str "client-id"), ("created_at", .num 1)]⟩
      (fun _ => .ok (some [samplePostA])) rfl rfl rfl).1,
   (insert_row_determined_by_three_fields
      ⟨some (.str " T"), some (.str "B "), some (.str "U"), []⟩
      ⟨some (.str " T"), some (.str "B "), some (.str "U"),
       [("id", .str "client-id"), ("created_at", .num 1)]⟩
      (fun _ => .ok (some [samplePostA])) rfl rfl rfl).2 (by rfl)⟩

end WeekSixExpress
